import Mathlib

/-!
Verification of the grant-processing core of `pyramid_oauth2_provider`.

The repository ships its test suite (`pyramid_oauth2_provider/tests.py`);
the modules under test (`views.py` with `oauth2_token` / `oauth2_authorize`,
`models.py` with `Oauth2Token` / `Oauth2Client` / `Oauth2Code` /
`Oauth2RedirectUri`) are not present, so the operations below are modelled
from the specification's description of those modules (sections 3-7 of the
spec), and checked against the behaviours the test suite pins down.

Randomness is modelled by passing the freshly generated opaque strings
(access token, refresh token, authorization code) as explicit inputs;
the spec's guarantees about the random source (64-character strings,
global uniqueness) become hypotheses on those inputs.  Time is a `Nat`
parameter `now`.
-/

namespace OAuth2

/-- Modelled from the spec: `models.py` `Oauth2Token`, missing from the
sources.  A token row: 64-character opaque access and refresh strings,
owning client and user, lifetime in seconds, issue timestamp and the
explicit revocation flag. -/
structure Token where
  access_token : String
  refresh_token : String
  client_id : Nat
  user_id : Nat
  expires_in : Nat
  issued_at : Nat
  revoked : Bool
deriving Repr, DecidableEq

/-- Modelled from the spec: `models.py` `Oauth2Token.isRevoked`, missing
from the sources.  A token counts as revoked when the explicit flag is set
or its lifetime window has elapsed. -/
def isRevoked (t : Token) (now : Nat) : Bool :=
  t.revoked || decide (t.issued_at + t.expires_in ≤ now)

/-- Modelled from the spec: `models.py` `Oauth2Token.revoke`, missing from
the sources.  Sets the revocation flag unconditionally. -/
def revoke (t : Token) : Token :=
  { t with revoked := true }

/-- Modelled from the spec: `models.py` `Oauth2Client`, missing from the
sources.  The stored secret representation is abstracted to the string the
verifier compares candidates against. -/
structure Client where
  client_id : Nat
  client_secret : String
deriving Repr, DecidableEq

/-- A parsed absolute URI: scheme, host, path, query key-value pairs and
fragment.  Redirect-URI matching compares scheme, host and path only. -/
structure Uri where
  scheme : String
  host : String
  path : String
  query : List (String × String)
  fragment : String
deriving Repr, DecidableEq

/-- Modelled from the spec: `models.py` `Oauth2RedirectUri`, missing from
the sources.  A registered redirect target belonging to one client. -/
structure RedirectUri where
  client_id : Nat
  uri : Uri
deriving Repr, DecidableEq

/-- Modelled from the spec: `models.py` `Oauth2Code`, missing from the
sources.  An authorization-code row. -/
structure AuthCode where
  authcode : String
  client_id : Nat
  user_id : Nat
  redirect : Uri
  created_at : Nat
deriving Repr, DecidableEq

/-- The persistent state the two endpoints read and write: clients with
their redirect URIs, issued tokens and issued authorization codes. -/
structure Store where
  clients : List Client
  redirect_uris : List RedirectUri
  tokens : List Token
  codes : List AuthCode
deriving Repr, DecidableEq

/-- Modelled from the spec: the configuration surface (`require_ssl`
toggle, default token lifetime). -/
structure Settings where
  require_ssl : Bool
  token_expires_in : Nat
deriving Repr, DecidableEq

/-- The spec's defaults: secure transport required, 3600-second tokens. -/
def defaultSettings : Settings :=
  { require_ssl := true, token_expires_in := 3600 }

/-- The protocol error taxonomy of spec section 7 that the two endpoints
can produce. -/
inductive HttpErr where
  | methodNotAllowed
  | badRequest
  | unauthorized
deriving Repr, DecidableEq

/-- The token representation both grants return on success. -/
structure TokenResponse where
  access_token : String
  refresh_token : String
  expires_in : Nat
  token_type : String
  user_id : Nat
deriving Repr, DecidableEq

/-- An inbound token-endpoint request: HTTP method, transport scheme, the
decoded Basic-auth client credentials when the header is present, and the
body fields of the two grants. -/
structure TokenRequest where
  method : String
  scheme : String
  auth_header : Option (Nat × String)
  grant_type : Option String
  username : Option String
  password : Option String
  refresh_token : Option String
  user_id : Option Nat
deriving Repr, DecidableEq

/-- An inbound authorize-endpoint request: transport scheme, query
parameters, with the optional `redirect_uri` already parsed. -/
structure AuthorizeRequest where
  scheme : String
  response_type : Option String
  client_id : Option Nat
  redirect_uri : Option Uri
  state : Option String
deriving Repr, DecidableEq

/-- Modelled from the spec: `ClientRegistry.lookup`, missing from the
sources. -/
def lookupClient (st : Store) (cid : Nat) : Option Client :=
  st.clients.find? (fun c => c.client_id == cid)

/-- Modelled from the spec: `ClientRegistry.verifySecret`, missing from
the sources.  Compares the candidate against the stored representation and
fails closed on lookup miss. -/
def verifySecret (st : Store) (cid : Nat) (secret : String) : Bool :=
  match lookupClient st cid with
  | none => false
  | some c => c.client_secret == secret

/-- Lookup of a persisted token row by its refresh-token string. -/
def lookupTokenByRefresh (st : Store) (rt : String) : Option Token :=
  st.tokens.find? (fun t => t.refresh_token == rt)

/-- Modelled from the spec: token minting inside `views.py`, missing from
the sources.  Creates a fresh unrevoked token row bound to the given
client and user and appends it to the store. -/
def mintToken (st : Store) (settings : Settings) (cid uid now : Nat)
    (freshA freshR : String) : Token × Store :=
  let t : Token :=
    { access_token := freshA, refresh_token := freshR, client_id := cid,
      user_id := uid, expires_in := settings.token_expires_in,
      issued_at := now, revoked := false }
  (t, { st with tokens := st.tokens ++ [t] })

/-- The wire representation of a freshly minted token. -/
def tokenResponseOf (t : Token) : TokenResponse :=
  { access_token := t.access_token, refresh_token := t.refresh_token,
    expires_in := t.expires_in, token_type := "bearer",
    user_id := t.user_id }

/-- Modelled from the spec: `views.py` `oauth2_token`, missing from the
sources.  Checks method, transport scheme, client credentials and
grant type in order, then dispatches to the password or refresh-token
grant.  `checkauth` is the injected end-user credential verifier; `freshA`
and `freshR` are the strings the random source supplies for the new token
pair. -/
def oauth2_token (settings : Settings)
    (checkauth : String → String → Option Nat)
    (st : Store) (now : Nat) (freshA freshR : String)
    (req : TokenRequest) : Except HttpErr TokenResponse × Store :=
  if req.method ≠ "POST" then
    (Except.error HttpErr.methodNotAllowed, st)
  else if settings.require_ssl && req.scheme ≠ "https" then
    (Except.error HttpErr.badRequest, st)
  else
    match req.auth_header with
    | none => (Except.error HttpErr.unauthorized, st)
    | some (cid, secret) =>
      if verifySecret st cid secret = false then
        (Except.error HttpErr.badRequest, st)
      else
        match req.grant_type with
        | some "password" =>
          match req.username, req.password with
          | some u, some p =>
            match checkauth u p with
            | none => (Except.error HttpErr.unauthorized, st)
            | some uid =>
              let r := mintToken st settings cid uid now freshA freshR
              (Except.ok (tokenResponseOf r.1), r.2)
          | _, _ => (Except.error HttpErr.badRequest, st)
        | some "refresh_token" =>
          match req.refresh_token, req.user_id with
          | some rt, some uid =>
            match lookupTokenByRefresh st rt with
            | none => (Except.error HttpErr.unauthorized, st)
            | some old =>
              if old.client_id ≠ cid then
                (Except.error HttpErr.badRequest, st)
              else if old.user_id ≠ uid then
                (Except.error HttpErr.badRequest, st)
              else
                let r := mintToken st settings old.client_id old.user_id
                  now freshA freshR
                (Except.ok (tokenResponseOf r.1), r.2)
          | _, _ => (Except.error HttpErr.badRequest, st)
        | _ => (Except.error HttpErr.badRequest, st)

/-- The redirect URIs registered for a client. -/
def urisFor (st : Store) (cid : Nat) : List RedirectUri :=
  st.redirect_uris.filter (fun r => r.client_id == cid)

/-- Scheme/host/path equality; the query component is not part of
redirect-URI matching. -/
def matchesBase (a b : Uri) : Bool :=
  a.scheme == b.scheme && a.host == b.host && a.path == b.path

/-- Modelled from the spec: the `RedirectResolver`, missing from the
sources.  A supplied URI must match one registered entry by
scheme+host+path; with none supplied, a sole registered entry is used and
zero or several registered entries are ambiguous. -/
def resolveRedirect (st : Store) (cid : Nat) (supplied : Option Uri) :
    Option Uri :=
  match supplied with
  | some u => (urisFor st cid |>.find? (fun r => matchesBase r.uri u)).map
      (fun r => r.uri)
  | none =>
    match urisFor st cid with
    | [r] => some r.uri
    | _ => none

/-- Query merging: the registered URI's parameters are kept except where
an issuer-added parameter uses the same key, and the issuer-added
parameters are appended. -/
def mergeQuery (base issuer : List (String × String)) :
    List (String × String) :=
  base.filter (fun p => !(issuer.any (fun q => q.1 == p.1))) ++ issuer

/-- The response parameters the issuer appends for the code grant: the
issued code, and the echoed state when supplied. -/
def issuerParamsCode (code : String) (state : Option String) :
    List (String × String) :=
  ("code", code) :: (match state with
    | some s => [("state", s)]
    | none => [])

/-- The response parameters the issuer appends for the implicit grant. -/
def issuerParamsImplicit (t : Token) (state : Option String) :
    List (String × String) :=
  ("access_token", t.access_token) :: ("token_type", "bearer") ::
    (match state with
      | some s => [("state", s)]
      | none => [])

/-- Modelled from the spec: `views.py` `oauth2_authorize`, missing from
the sources.  Checks transport scheme, client and response type, resolves
the redirect URI, then persists a code (code grant) or token (implicit
grant) and builds the 302 redirect location.  `authUser` is the ambient
authenticated identity; `freshCode`, `freshA`, `freshR` are the strings
the random source supplies. -/
def oauth2_authorize (settings : Settings) (st : Store)
    (authUser : Nat) (now : Nat) (freshCode freshA freshR : String)
    (req : AuthorizeRequest) : Except HttpErr Uri × Store :=
  if settings.require_ssl && req.scheme ≠ "https" then
    (Except.error HttpErr.badRequest, st)
  else
    match req.client_id with
    | none => (Except.error HttpErr.badRequest, st)
    | some cid =>
      match lookupClient st cid with
      | none => (Except.error HttpErr.badRequest, st)
      | some _ =>
        match req.response_type with
        | some "code" =>
          match resolveRedirect st cid req.redirect_uri with
          | none => (Except.error HttpErr.badRequest, st)
          | some base =>
            let params := issuerParamsCode freshCode req.state
            let loc : Uri :=
              { base with
                  query := mergeQuery base.query params
                  fragment := "" }
            let c : AuthCode :=
              { authcode := freshCode, client_id := cid,
                user_id := authUser, redirect := base, created_at := now }
            (Except.ok loc, { st with codes := st.codes ++ [c] })
        | some "token" =>
          match resolveRedirect st cid req.redirect_uri with
          | none => (Except.error HttpErr.badRequest, st)
          | some base =>
            let r := mintToken st settings cid authUser now freshA freshR
            let params := issuerParamsImplicit r.1 req.state
            let loc : Uri :=
              { base with
                  query := mergeQuery base.query params
                  fragment := "" }
            (Except.ok loc, r.2)
        | _ => (Except.error HttpErr.badRequest, st)

/-! Concrete inputs used to witness the theorems below: a store with one
registered client (id 1, secret "s") owning one redirect URI, mirroring
the fixture `TestCase.setUp` / `_create_client` builds in `tests.py`. -/

/-- A 64-character access-token string. -/
def strA : String :=
  "aaaaaaaaaaaaaaaaaaaaaaaaaaaaaaaaaaaaaaaaaaaaaaaaaaaaaaaaaaaaaaaa"

/-- A 64-character refresh-token string. -/
def strR : String :=
  "rrrrrrrrrrrrrrrrrrrrrrrrrrrrrrrrrrrrrrrrrrrrrrrrrrrrrrrrrrrrrrrr"

/-- A second 64-character access-token string. -/
def strA2 : String :=
  "bbbbbbbbbbbbbbbbbbbbbbbbbbbbbbbbbbbbbbbbbbbbbbbbbbbbbbbbbbbbbbbb"

/-- A second 64-character refresh-token string. -/
def strR2 : String :=
  "ssssssssssssssssssssssssssssssssssssssssssssssssssssssssssssssss"

/-- The fixture's sole registered redirect URI (`http://localhost`). -/
def uriW : Uri :=
  { scheme := "http", host := "localhost", path := "", query := [],
    fragment := "" }

/-- The fixture store: one client, one registered redirect URI. -/
def stW : Store :=
  { clients := [{ client_id := 1, client_secret := "s" }]
    redirect_uris := [{ client_id := 1, uri := uriW }]
    tokens := []
    codes := [] }

/-- The fixture credential verifier: accepts john/foo as user 500. -/
def caW : String → String → Option Nat :=
  fun u p => if u = "john" && p = "foo" then some 500 else none

/-- The fixture password-grant request. -/
def reqPwW : TokenRequest :=
  { method := "POST", scheme := "https", auth_header := some (1, "s")
    grant_type := some "password", username := some "john"
    password := some "foo", refresh_token := none, user_id := none }

/-- The token the fixture password grant mints. -/
def tokW : Token :=
  { access_token := strA, refresh_token := strR, client_id := 1,
    user_id := 500, expires_in := 3600, issued_at := 10, revoked := false }

/-- The store after the fixture password grant. -/
def stW1 : Store :=
  { stW with tokens := stW.tokens ++ [tokW] }

/-- The fixture token after an explicit revocation. -/
def tokWrevoked : Token := revoke tokW

/-- The fixture store holding only the revoked token. -/
def stWrev : Store :=
  { stW with tokens := [tokWrevoked] }

/-- The fixture authorize request: code grant for client 1, no
`redirect_uri`, no state. -/
def areqW : AuthorizeRequest :=
  { scheme := "https", response_type := some "code", client_id := some 1,
    redirect_uri := none, state := none }

/-- A registered redirect URI carrying a query component, mirroring
`testRetainRedirectQueryComponent`'s `https://otherhost.com/and/path?some=value`. -/
def quriW : Uri :=
  { scheme := "https", host := "otherhost.com", path := "/and/path",
    query := [("some", "value")], fragment := "" }

/-- A store with two registered clients, the query-bearing redirect URI
for client 1, and the fixture token already issued to client 1. -/
def stW2 : Store :=
  { clients := [{ client_id := 1, client_secret := "s" },
                { client_id := 2, client_secret := "t" }]
    redirect_uris := [{ client_id := 1, uri := quriW }]
    tokens := [tokW]
    codes := [] }

/-- The fixture store with its redirect URI removed. -/
def stW0 : Store :=
  { stW with redirect_uris := [] }

/-- The fixture store with a second redirect URI registered for
client 1, as in `testMultipleRedirectUrisUnspecified`. -/
def stWm : Store :=
  { stW with redirect_uris := stW.redirect_uris ++
      [{ client_id := 1,
         uri := { scheme := "https", host := "otherhost.com", path := "",
                  query := [], fragment := "" } }] }

/-- The redirect location of the fixture query-preserving authorize
request: the registered query parameter kept alongside the issued code. -/
def locW : Uri :=
  { scheme := "https", host := "otherhost.com", path := "/and/path",
    query := [("some", "value"), ("code", "C")], fragment := "" }

/-- The store after the fixture query-preserving authorize request. -/
def stW2' : Store :=
  { stW2 with codes := stW2.codes ++
      [{ authcode := "C", client_id := 1, user_id := 1,
         redirect := quriW, created_at := 10 }] }

/-- The redirect location of the fixture plain authorize request. -/
def locW10 : Uri :=
  { scheme := "http", host := "localhost", path := "",
    query := [("code", "C")], fragment := "" }

/-- The store after the fixture plain authorize request. -/
def stW10 : Store :=
  { stW with codes := stW.codes ++
      [{ authcode := "C", client_id := 1, user_id := 1,
         redirect := uriW, created_at := 10 }] }

end OAuth2

namespace OAuth2

/-- C4: for every token and time, `isRevoked` equals the flag disjoined
with lifetime expiry; a flag-clear token with `expires_in` set to 0 is
revoked at any time at or past issuance, and with a positive not-yet
elapsed window it is not revoked. -/
theorem c4_isRevoked_spec (t : Token) (now : Nat) :
    isRevoked t now = (t.revoked || decide (t.issued_at + t.expires_in ≤ now)) ∧
    (t.revoked = false → t.issued_at ≤ now →
      isRevoked { t with expires_in := 0 } now = true) ∧
    (∀ e : Nat, t.revoked = false → 0 < e → now < t.issued_at + e →
      isRevoked { t with expires_in := e } now = false) := by
  refine ⟨rfl, fun hrev hle => ?_, fun e hrev _ hlt => ?_⟩
  · simp [isRevoked, hrev, hle]
  · simp [isRevoked, hrev]
    omega

/-- Witness for C4 at the fixture token, issued at time 10. -/
theorem c4_isRevoked_spec_witness :
    isRevoked { tokW with expires_in := 0 } 10 = true ∧
    isRevoked { tokW with expires_in := 10 } 10 = false :=
  ⟨(c4_isRevoked_spec tokW 10).2.1 rfl (by decide),
    (c4_isRevoked_spec tokW 10).2.2 10 rfl (by decide) (by decide)⟩

/-- C1: every successful token request (either grant) returns a
representation with 64-character access and refresh tokens, the two
distinct, `expires_in` equal to the default 3600, token type bearer and
the authenticated user identity, and persists a matching token row. -/
theorem c1_token_success (checkauth : String → String → Option Nat)
    (st : Store) (now : Nat) (a r : String) (req : TokenRequest)
    (resp : TokenResponse) (st' : Store)
    (ha : a.length = 64) (hr : r.length = 64) (hd : a ≠ r)
    (h : oauth2_token defaultSettings checkauth st now a r req =
      (Except.ok resp, st')) :
    resp.access_token.length = 64 ∧ resp.refresh_token.length = 64 ∧
    resp.access_token ≠ resp.refresh_token ∧ resp.expires_in = 3600 ∧
    resp.token_type = "bearer" ∧
    (req.grant_type = some "password" →
      ∃ u p, req.username = some u ∧ req.password = some p ∧
        checkauth u p = some resp.user_id) ∧
    (req.grant_type = some "refresh_token" →
      req.user_id = some resp.user_id) ∧
    ∃ t, t ∈ st'.tokens ∧ t.access_token = resp.access_token ∧
      t.refresh_token = resp.refresh_token ∧ t.user_id = resp.user_id ∧
      t.expires_in = resp.expires_in := by
  unfold oauth2_token at h
  split at h
  · simp at h
  split at h
  · simp at h
  split at h
  · simp at h
  rename_i cid secret heq
  split at h
  · simp at h
  split at h
  · rename_i heqg
    split at h
    · rename_i u p hu hp
      split at h
      · simp at h
      · rename_i uid hca
        simp only [mintToken, tokenResponseOf, Prod.mk.injEq,
          Except.ok.injEq] at h
        obtain ⟨h1, h2⟩ := h
        subst h1
        subst h2
        refine ⟨ha, hr, hd, rfl, rfl, fun _ => ⟨u, p, hu, hp, hca⟩,
          fun hgr => by rw [heqg] at hgr; simp at hgr, ?_⟩
        refine ⟨{ access_token := a, refresh_token := r, client_id := cid,
                  user_id := uid,
                  expires_in := defaultSettings.token_expires_in,
                  issued_at := now, revoked := false },
          by simp, rfl, rfl, rfl, rfl⟩
    · simp at h
  · rename_i heqg
    split at h
    · rename_i rt uid hrt huid
      split at h
      · simp at h
      · rename_i old hold
        split at h
        · simp at h
        split at h
        · simp at h
        rename_i hcid huidm
        simp only [mintToken, tokenResponseOf, Prod.mk.injEq,
          Except.ok.injEq] at h
        obtain ⟨h1, h2⟩ := h
        subst h1
        subst h2
        refine ⟨ha, hr, hd, rfl, rfl,
          fun hgr => by rw [heqg] at hgr; simp at hgr,
          fun _ => ?_, ?_⟩
        · rw [huid]
          simp only [Option.some.injEq]
          omega
        · refine ⟨{ access_token := a, refresh_token := r,
                    client_id := old.client_id, user_id := old.user_id,
                    expires_in := defaultSettings.token_expires_in,
                    issued_at := now, revoked := false },
            by simp, rfl, rfl, rfl, rfl⟩
    · simp at h
  · simp at h

/-- Witness for C1: the fixture password grant (user john/foo, client 1)
at time 10 with the concrete 64-character fresh strings. -/
theorem c1_token_success_witness :
    (tokenResponseOf tokW).access_token.length = 64 ∧
    (tokenResponseOf tokW).refresh_token.length = 64 ∧
    (tokenResponseOf tokW).access_token ≠
      (tokenResponseOf tokW).refresh_token ∧
    (tokenResponseOf tokW).expires_in = 3600 ∧
    (tokenResponseOf tokW).token_type = "bearer" ∧
    (reqPwW.grant_type = some "password" →
      ∃ u p, reqPwW.username = some u ∧ reqPwW.password = some p ∧
        caW u p = some (tokenResponseOf tokW).user_id) ∧
    (reqPwW.grant_type = some "refresh_token" →
      reqPwW.user_id = some (tokenResponseOf tokW).user_id) ∧
    ∃ t, t ∈ stW1.tokens ∧
      t.access_token = (tokenResponseOf tokW).access_token ∧
      t.refresh_token = (tokenResponseOf tokW).refresh_token ∧
      t.user_id = (tokenResponseOf tokW).user_id ∧
      t.expires_in = (tokenResponseOf tokW).expires_in :=
  c1_token_success caW stW 10 strA strR reqPwW (tokenResponseOf tokW) stW1
    (by decide) (by decide) (by decide) rfl

/-- C9: every rejected token or authorize request leaves the store
unchanged: no code or token row is created or mutated on any rejection
path. -/
theorem c9_rejection_preserves_store (settings : Settings)
    (checkauth : String → String → Option Nat) (st : Store) (now : Nat)
    (a r c : String) (req : TokenRequest) (authUser : Nat)
    (areq : AuthorizeRequest) :
    (∀ e st', oauth2_token settings checkauth st now a r req =
      (Except.error e, st') → st' = st) ∧
    (∀ e st', oauth2_authorize settings st authUser now c a r areq =
      (Except.error e, st') → st' = st) := by
  constructor
  · intro e st' h
    unfold oauth2_token at h
    repeat' split at h
    all_goals simp_all
  · intro e st' h
    unfold oauth2_authorize at h
    repeat' split at h
    all_goals simp_all

/-- Witness for C9: a token request with the Authorization header absent
and an authorize request over plain http are both rejected with the
fixture store intact. -/
theorem c9_rejection_preserves_store_witness : stW = stW ∧ stW = stW :=
  ⟨(c9_rejection_preserves_store defaultSettings caW stW 10 strA strR
      strA { reqPwW with auth_header := none } 1 areqW).1
      HttpErr.unauthorized stW rfl,
    (c9_rejection_preserves_store defaultSettings caW stW 10 strA strR
      strA reqPwW 1 { areqW with scheme := "http" }).2
      HttpErr.badRequest stW rfl⟩

/-- In an association list whose prefix holds no entry matching the key,
lookup falls through to the suffix. -/
theorem lookup_append_right_of_keys_false {l1 l2 : List (String × String)}
    {k : String} (h : ∀ p ∈ l1, (k == p.1) = false) :
    (l1 ++ l2).lookup k = l2.lookup k := by
  induction l1 with
  | nil => rfl
  | cons p l ih =>
    obtain ⟨pk, pv⟩ := p
    have hp := h (pk, pv) (List.mem_cons_self _ _)
    simp only [List.cons_append, List.lookup, hp]
    exact ih (fun q hq => h q (List.mem_cons_of_mem _ hq))

/-- A successful association-list lookup exhibits an entry matching the
key. -/
theorem lookup_some_key_mem {l : List (String × String)} {k v : String}
    (h : l.lookup k = some v) : ∃ p ∈ l, (k == p.1) = true := by
  induction l with
  | nil => simp [List.lookup] at h
  | cons p l ih =>
    obtain ⟨pk, pv⟩ := p
    by_cases hk : (k == pk) = true
    · exact ⟨(pk, pv), List.mem_cons_self _ _, hk⟩
    · simp only [List.lookup, Bool.not_eq_true] at h hk
      rw [hk] at h
      obtain ⟨q, hq, hkq⟩ := ih h
      exact ⟨q, List.mem_cons_of_mem _ hq, hkq⟩

/-- A registered query parameter whose key collides with no issuer-added
parameter survives the merge. -/
theorem mergeQuery_keeps {base issuer : List (String × String)}
    {kv : String × String} (hmem : kv ∈ base)
    (hno : issuer.any (fun q => q.1 == kv.1) = false) :
    kv ∈ mergeQuery base issuer := by
  unfold mergeQuery
  exact List.mem_append_left _ (List.mem_filter.mpr ⟨hmem, by simp [hno]⟩)

/-- Every issuer-added parameter appears in the merged query. -/
theorem mergeQuery_issuer_mem {base issuer : List (String × String)}
    {kv : String × String} (hmem : kv ∈ issuer) :
    kv ∈ mergeQuery base issuer :=
  List.mem_append_right _ hmem

/-- Issuer-added parameters take precedence in the merged query: a key
the issuer binds looks up to the issuer's value. -/
theorem mergeQuery_lookup_issuer {base issuer : List (String × String)}
    {k v : String} (h : issuer.lookup k = some v) :
    (mergeQuery base issuer).lookup k = some v := by
  unfold mergeQuery
  rw [lookup_append_right_of_keys_false]
  · exact h
  · intro p hp
    rw [List.mem_filter] at hp
    obtain ⟨q, hq, hkq⟩ := lookup_some_key_mem h
    by_contra hk
    rw [Bool.not_eq_false] at hk
    have hkeq : k = p.1 := eq_of_beq hk
    have hqk : q.1 = k := (eq_of_beq hkq).symm
    have : issuer.any (fun q' => q'.1 == p.1) = true :=
      List.any_eq_true.mpr ⟨q, hq, by rw [hqk, hkeq]; exact beq_self_eq_true _⟩
    simp [this] at hp

/-- C2: presenting the refresh token of any persisted token row in a
well-formed refresh grant with matching authenticated client and matching
user mints and returns a fresh distinct token pair bound to the same
client and user, regardless of the old row's revoked flag; the old row
stays in the store untouched. -/
theorem c2_refresh_after_revoke (checkauth : String → String → Option Nat)
    (st : Store) (now : Nat) (a r sec rt : String) (old : Token)
    (u? p? : Option String)
    (hv : verifySecret st old.client_id sec = true)
    (hl : lookupTokenByRefresh st rt = some old)
    (hfa : a ≠ old.access_token) (hfr : r ≠ old.refresh_token) :
    oauth2_token defaultSettings checkauth st now a r
      { method := "POST", scheme := "https",
        auth_header := some (old.client_id, sec),
        grant_type := some "refresh_token", username := u?, password := p?,
        refresh_token := some rt, user_id := some old.user_id } =
      (Except.ok (tokenResponseOf
          (mintToken st defaultSettings old.client_id old.user_id now a r).1),
        (mintToken st defaultSettings old.client_id old.user_id now a r).2) ∧
    old ∈ (mintToken st defaultSettings old.client_id old.user_id now a
      r).2.tokens ∧
    (mintToken st defaultSettings old.client_id old.user_id now a
        r).2.tokens =
      st.tokens ++
        [(mintToken st defaultSettings old.client_id old.user_id now a
          r).1] ∧
    (mintToken st defaultSettings old.client_id old.user_id now a
        r).1.client_id = old.client_id ∧
    (mintToken st defaultSettings old.client_id old.user_id now a
        r).1.user_id = old.user_id ∧
    (mintToken st defaultSettings old.client_id old.user_id now a
        r).1.access_token ≠ old.access_token ∧
    (mintToken st defaultSettings old.client_id old.user_id now a
        r).1.refresh_token ≠ old.refresh_token := by
  have hmem : old ∈ st.tokens := by
    unfold lookupTokenByRefresh at hl
    exact List.mem_of_find?_eq_some hl
  refine ⟨?_, ?_, rfl, rfl, rfl, hfa, hfr⟩
  · simp [oauth2_token, hv, hl]
  · simp [mintToken]
    exact Or.inl hmem

/-- Witness for C2: the fixture store holding only the explicitly revoked
token; its refresh token still mints a new pair at time 20. -/
theorem c2_refresh_after_revoke_witness :
    tokWrevoked.revoked = true ∧
    (oauth2_token defaultSettings caW stWrev 20 strA2 strR2
      { method := "POST", scheme := "https",
        auth_header := some (tokWrevoked.client_id, "s"),
        grant_type := some "refresh_token", username := none,
        password := none, refresh_token := some strR,
        user_id := some tokWrevoked.user_id } =
      (Except.ok (tokenResponseOf
          (mintToken stWrev defaultSettings tokWrevoked.client_id
            tokWrevoked.user_id 20 strA2 strR2).1),
        (mintToken stWrev defaultSettings tokWrevoked.client_id
          tokWrevoked.user_id 20 strA2 strR2).2) ∧
    tokWrevoked ∈ (mintToken stWrev defaultSettings tokWrevoked.client_id
      tokWrevoked.user_id 20 strA2 strR2).2.tokens ∧
    (mintToken stWrev defaultSettings tokWrevoked.client_id
        tokWrevoked.user_id 20 strA2 strR2).2.tokens =
      stWrev.tokens ++
        [(mintToken stWrev defaultSettings tokWrevoked.client_id
          tokWrevoked.user_id 20 strA2 strR2).1] ∧
    (mintToken stWrev defaultSettings tokWrevoked.client_id
        tokWrevoked.user_id 20 strA2 strR2).1.client_id =
      tokWrevoked.client_id ∧
    (mintToken stWrev defaultSettings tokWrevoked.client_id
        tokWrevoked.user_id 20 strA2 strR2).1.user_id =
      tokWrevoked.user_id ∧
    (mintToken stWrev defaultSettings tokWrevoked.client_id
        tokWrevoked.user_id 20 strA2 strR2).1.access_token ≠
      tokWrevoked.access_token ∧
    (mintToken stWrev defaultSettings tokWrevoked.client_id
        tokWrevoked.user_id 20 strA2 strR2).1.refresh_token ≠
      tokWrevoked.refresh_token) :=
  ⟨by decide,
    c2_refresh_after_revoke caW stWrev 20 strA2 strR2 "s" strR tokWrevoked
      none none (by decide) (by decide) (by decide) (by decide)⟩

/-- C3: in a well-formed refresh grant with verified client credentials,
an unknown refresh token is rejected as unauthorized, and a found token
owned by a different client or bound to a different user is rejected as a
bad request; in each case the store is unchanged. -/
theorem c3_refresh_failure_modes (checkauth : String → String → Option Nat)
    (st : Store) (now : Nat) (a r sec rt : String) (cid uid : Nat)
    (u? p? : Option String)
    (hv : verifySecret st cid sec = true) :
    (lookupTokenByRefresh st rt = none →
      oauth2_token defaultSettings checkauth st now a r
        { method := "POST", scheme := "https",
          auth_header := some (cid, sec),
          grant_type := some "refresh_token", username := u?,
          password := p?, refresh_token := some rt, user_id := some uid } =
        (Except.error HttpErr.unauthorized, st)) ∧
    (∀ old, lookupTokenByRefresh st rt = some old → old.client_id ≠ cid →
      oauth2_token defaultSettings checkauth st now a r
        { method := "POST", scheme := "https",
          auth_header := some (cid, sec),
          grant_type := some "refresh_token", username := u?,
          password := p?, refresh_token := some rt, user_id := some uid } =
        (Except.error HttpErr.badRequest, st)) ∧
    (∀ old, lookupTokenByRefresh st rt = some old → old.client_id = cid →
      old.user_id ≠ uid →
      oauth2_token defaultSettings checkauth st now a r
        { method := "POST", scheme := "https",
          auth_header := some (cid, sec),
          grant_type := some "refresh_token", username := u?,
          password := p?, refresh_token := some rt, user_id := some uid } =
        (Except.error HttpErr.badRequest, st)) := by
  refine ⟨fun hl => ?_, fun old hl hcid => ?_, fun old hl hcid huid => ?_⟩
  · simp [oauth2_token, hv, hl]
  · simp [oauth2_token, hv, hl, hcid]
  · simp [oauth2_token, hv, hl, hcid, huid]

/-- Witness for C3: against the two-client fixture store holding the
issued token, the unknown string abcd is unauthorized, client 2
presenting client 1's refresh token is a bad request, and a mismatched
user id 7 is a bad request. -/
theorem c3_refresh_failure_modes_witness :
    (oauth2_token defaultSettings caW stW2 20 strA2 strR2
      { method := "POST", scheme := "https", auth_header := some (1, "s"),
        grant_type := some "refresh_token", username := none,
        password := none, refresh_token := some "abcd",
        user_id := some 500 } =
      (Except.error HttpErr.unauthorized, stW2)) ∧
    (oauth2_token defaultSettings caW stW2 20 strA2 strR2
      { method := "POST", scheme := "https", auth_header := some (2, "t"),
        grant_type := some "refresh_token", username := none,
        password := none, refresh_token := some strR,
        user_id := some 500 } =
      (Except.error HttpErr.badRequest, stW2)) ∧
    (oauth2_token defaultSettings caW stW2 20 strA2 strR2
      { method := "POST", scheme := "https", auth_header := some (1, "s"),
        grant_type := some "refresh_token", username := none,
        password := none, refresh_token := some strR,
        user_id := some 7 } =
      (Except.error HttpErr.badRequest, stW2)) :=
  ⟨(c3_refresh_failure_modes caW stW2 20 strA2 strR2 "s" "abcd" 1 500
      none none (by decide)).1 (by decide),
    (c3_refresh_failure_modes caW stW2 20 strA2 strR2 "t" strR 2 500
      none none (by decide)).2.1 tokW (by decide) (by decide),
    (c3_refresh_failure_modes caW stW2 20 strA2 strR2 "s" strR 1 7
      none none (by decide)).2.2 tokW (by decide) (by decide) (by decide)⟩

/-- C5: an authorize request omitting `redirect_uri` (either response
type) succeeds and redirects to the sole registered URI when the client
has exactly one, and is rejected as a bad request when the client has
zero or at least two registered URIs. -/
theorem c5_redirect_uri_omitted (st : Store) (authUser now : Nat)
    (c a r : String) (cid : Nat) (cl : Client) (state? : Option String)
    (rtype : String) (hcl : lookupClient st cid = some cl)
    (hrt : rtype = "code" ∨ rtype = "token") :
    (∀ ru, urisFor st cid = [ru] →
      ∃ loc st', oauth2_authorize defaultSettings st authUser now c a r
          { scheme := "https", response_type := some rtype,
            client_id := some cid, redirect_uri := none,
            state := state? } =
          (Except.ok loc, st') ∧
        loc.scheme = ru.uri.scheme ∧ loc.host = ru.uri.host ∧
        loc.path = ru.uri.path) ∧
    (urisFor st cid = [] →
      oauth2_authorize defaultSettings st authUser now c a r
          { scheme := "https", response_type := some rtype,
            client_id := some cid, redirect_uri := none,
            state := state? } =
        (Except.error HttpErr.badRequest, st)) ∧
    (∀ r1 r2 rest, urisFor st cid = r1 :: r2 :: rest →
      oauth2_authorize defaultSettings st authUser now c a r
          { scheme := "https", response_type := some rtype,
            client_id := some cid, redirect_uri := none,
            state := state? } =
        (Except.error HttpErr.badRequest, st)) := by
  have hresnil : urisFor st cid = [] →
      resolveRedirect st cid none = none := by
    intro hn
    simp [resolveRedirect, hn]
  rcases hrt with hrt | hrt <;> subst hrt
  · refine ⟨fun ru hru => ?_, fun hn => ?_, fun r1 r2 rest hrr => ?_⟩
    · refine ⟨{ ru.uri with
          query := mergeQuery ru.uri.query (issuerParamsCode c state?)
          fragment := "" },
        { st with codes := st.codes ++
          [{ authcode := c, client_id := cid, user_id := authUser,
             redirect := ru.uri, created_at := now }] }, ?_, rfl, rfl, rfl⟩
      simp [oauth2_authorize, hcl, resolveRedirect, hru]
    · simp [oauth2_authorize, hcl, hresnil hn]
    · simp [oauth2_authorize, hcl, resolveRedirect, hrr]
  · refine ⟨fun ru hru => ?_, fun hn => ?_, fun r1 r2 rest hrr => ?_⟩
    · refine ⟨{ ru.uri with
          query := mergeQuery ru.uri.query
            (issuerParamsImplicit
              (mintToken st defaultSettings cid authUser now a r).1 state?)
          fragment := "" },
        (mintToken st defaultSettings cid authUser now a r).2, ?_, rfl,
        rfl, rfl⟩
      simp [oauth2_authorize, hcl, resolveRedirect, hru]
    · simp [oauth2_authorize, hcl, hresnil hn]
    · simp [oauth2_authorize, hcl, resolveRedirect, hrr]

/-- Witness for C5: the one-URI fixture store succeeds and lands on the
registered localhost URI; the zero-URI and two-URI variants are rejected
without touching the store. -/
theorem c5_redirect_uri_omitted_witness :
    (∃ loc st', oauth2_authorize defaultSettings stW 1 10 "C" strA strR
        { scheme := "https", response_type := some "code",
          client_id := some 1, redirect_uri := none, state := none } =
        (Except.ok loc, st') ∧
      loc.scheme = uriW.scheme ∧ loc.host = uriW.host ∧
      loc.path = uriW.path) ∧
    (oauth2_authorize defaultSettings stW0 1 10 "C" strA strR
        { scheme := "https", response_type := some "code",
          client_id := some 1, redirect_uri := none, state := none } =
      (Except.error HttpErr.badRequest, stW0)) ∧
    (oauth2_authorize defaultSettings stWm 1 10 "C" strA strR
        { scheme := "https", response_type := some "code",
          client_id := some 1, redirect_uri := none, state := none } =
      (Except.error HttpErr.badRequest, stWm)) :=
  ⟨(c5_redirect_uri_omitted stW 1 10 "C" strA strR 1
        { client_id := 1, client_secret := "s" } none "code" (by decide)
        (Or.inl rfl)).1 { client_id := 1, uri := uriW } (by decide),
    (c5_redirect_uri_omitted stW0 1 10 "C" strA strR 1
        { client_id := 1, client_secret := "s" } none "code" (by decide)
        (Or.inl rfl)).2.1 (by decide),
    (c5_redirect_uri_omitted stWm 1 10 "C" strA strR 1
        { client_id := 1, client_secret := "s" } none "code" (by decide)
        (Or.inl rfl)).2.2 { client_id := 1, uri := uriW }
        { client_id := 1,
          uri := { scheme := "https", host := "otherhost.com", path := "",
                   query := [], fragment := "" } } [] (by decide)⟩

/-- C6: a successful code-grant authorize request keeps every
non-colliding query parameter of the matched registered URI in the final
redirect query, carries the issued code there, and lets issuer-added
parameters win lookups on key collision. -/
theorem c6_registered_query_preserved (st : Store) (authUser now : Nat)
    (c a r : String) (cid : Nat) (cl : Client) (u base : Uri)
    (state? : Option String) (loc : Uri) (st' : Store)
    (hcl : lookupClient st cid = some cl)
    (hres : resolveRedirect st cid (some u) = some base)
    (h : oauth2_authorize defaultSettings st authUser now c a r
        { scheme := "https", response_type := some "code",
          client_id := some cid, redirect_uri := some u,
          state := state? } =
      (Except.ok loc, st')) :
    (∀ kv ∈ base.query,
      (issuerParamsCode c state?).any (fun q => q.1 == kv.1) = false →
      kv ∈ loc.query) ∧
    ("code", c) ∈ loc.query ∧
    (∀ k v, (issuerParamsCode c state?).lookup k = some v →
      loc.query.lookup k = some v) := by
  simp only [oauth2_authorize, hcl, hres] at h
  norm_num at h
  obtain ⟨h1, h2⟩ := h
  subst h1
  refine ⟨fun kv hmem hno => mergeQuery_keeps hmem hno,
    mergeQuery_issuer_mem (List.mem_cons_self _ _),
    fun k v hkv => mergeQuery_lookup_issuer hkv⟩

/-- Witness for C6: the fixture request supplying the registered
`otherhost.com/and/path?some=value` URI; `some=value` survives next to
the issued code C. -/
theorem c6_registered_query_preserved_witness :
    (∀ kv ∈ quriW.query,
      (issuerParamsCode "C" none).any (fun q => q.1 == kv.1) = false →
      kv ∈ locW.query) ∧
    ("code", "C") ∈ locW.query ∧
    (∀ k v, (issuerParamsCode "C" none).lookup k = some v →
      locW.query.lookup k = some v) :=
  c6_registered_query_preserved stW2 1 10 "C" strA strR 1
    { client_id := 1, client_secret := "s" } quriW quriW none locW stW2'
    (by decide) (by decide) rfl

/-- C7: with secure transport enforced a non-https request to either
endpoint is rejected as a bad request, and with the toggle disabled the
transport scheme has no effect on either endpoint's outcome. -/
theorem c7_scheme_enforcement (settings : Settings)
    (checkauth : String → String → Option Nat) (st : Store) (now : Nat)
    (a r c : String) (req : TokenRequest) (authUser : Nat)
    (areq : AuthorizeRequest) (hm : req.method = "POST") :
    (settings.require_ssl = true → req.scheme ≠ "https" →
      oauth2_token settings checkauth st now a r req =
        (Except.error HttpErr.badRequest, st)) ∧
    (settings.require_ssl = false →
      oauth2_token settings checkauth st now a r req =
        oauth2_token settings checkauth st now a r
          { req with scheme := "https" }) ∧
    (settings.require_ssl = true → areq.scheme ≠ "https" →
      oauth2_authorize settings st authUser now c a r areq =
        (Except.error HttpErr.badRequest, st)) ∧
    (settings.require_ssl = false →
      oauth2_authorize settings st authUser now c a r areq =
        oauth2_authorize settings st authUser now c a r
          { areq with scheme := "https" }) := by
  refine ⟨fun hssl hsch => ?_, fun hssl => ?_, fun hssl hsch => ?_,
    fun hssl => ?_⟩
  · simp [oauth2_token, hm, hssl, hsch]
  · simp [oauth2_token, hm, hssl]
  · simp [oauth2_authorize, hssl, hsch]
  · simp [oauth2_authorize, hssl]

/-- Witness for C7: the fixture password grant and authorize request over
plain http are rejected under the default settings, and with the toggle
off each is processed exactly as its https counterpart. -/
theorem c7_scheme_enforcement_witness :
    (oauth2_token defaultSettings caW stW 10 strA strR
        { reqPwW with scheme := "http" } =
      (Except.error HttpErr.badRequest, stW)) ∧
    (oauth2_token { defaultSettings with require_ssl := false } caW stW 10
        strA strR { reqPwW with scheme := "http" } =
      oauth2_token { defaultSettings with require_ssl := false } caW stW
        10 strA strR
        { { reqPwW with scheme := "http" } with scheme := "https" }) ∧
    (oauth2_authorize defaultSettings stW 1 10 "C" strA strR
        { areqW with scheme := "http" } =
      (Except.error HttpErr.badRequest, stW)) ∧
    (oauth2_authorize { defaultSettings with require_ssl := false } stW 1
        10 "C" strA strR { areqW with scheme := "http" } =
      oauth2_authorize { defaultSettings with require_ssl := false } stW 1
        10 "C" strA strR
        { { areqW with scheme := "http" } with scheme := "https" }) :=
  ⟨(c7_scheme_enforcement defaultSettings caW stW 10 strA strR "C"
      { reqPwW with scheme := "http" } 1 { areqW with scheme := "http" }
      rfl).1 rfl (by decide),
    (c7_scheme_enforcement { defaultSettings with require_ssl := false }
      caW stW 10 strA strR "C" { reqPwW with scheme := "http" } 1
      { areqW with scheme := "http" } rfl).2.1 rfl,
    (c7_scheme_enforcement defaultSettings caW stW 10 strA strR "C"
      { reqPwW with scheme := "http" } 1 { areqW with scheme := "http" }
      rfl).2.2.1 rfl (by decide),
    (c7_scheme_enforcement { defaultSettings with require_ssl := false }
      caW stW 10 strA strR "C" { reqPwW with scheme := "http" } 1
      { areqW with scheme := "http" } rfl).2.2.2 rfl⟩

/-- C8: at the token endpoint a missing Authorization header is rejected
as unauthorized while a present header failing secret verification is
rejected as a bad request, and the two outcomes are distinct. -/
theorem c8_client_credential_failures
    (checkauth : String → String → Option Nat) (st : Store) (now : Nat)
    (a r : String) (req : TokenRequest)
    (hm : req.method = "POST") (hs : req.scheme = "https") :
    (req.auth_header = none →
      oauth2_token defaultSettings checkauth st now a r req =
        (Except.error HttpErr.unauthorized, st)) ∧
    (∀ cid sec, req.auth_header = some (cid, sec) →
      verifySecret st cid sec = false →
      oauth2_token defaultSettings checkauth st now a r req =
        (Except.error HttpErr.badRequest, st)) ∧
    HttpErr.unauthorized ≠ HttpErr.badRequest := by
  refine ⟨fun hnone => ?_, fun cid sec hsome hv => ?_, by simp⟩
  · simp [oauth2_token, hm, hs, hnone]
  · simp [oauth2_token, hm, hs, hsome, hv]

/-- Witness for C8: the fixture password grant without the Authorization
header is unauthorized; with the wrong secret abcde it is a bad
request. -/
theorem c8_client_credential_failures_witness :
    (oauth2_token defaultSettings caW stW 10 strA strR
        { reqPwW with auth_header := none } =
      (Except.error HttpErr.unauthorized, stW)) ∧
    (oauth2_token defaultSettings caW stW 10 strA strR
        { reqPwW with auth_header := some (1, "abcde") } =
      (Except.error HttpErr.badRequest, stW)) ∧
    HttpErr.unauthorized ≠ HttpErr.badRequest :=
  ⟨(c8_client_credential_failures caW stW 10 strA strR
      { reqPwW with auth_header := none } rfl rfl).1 rfl,
    (c8_client_credential_failures caW stW 10 strA strR
      { reqPwW with auth_header := some (1, "abcde") } rfl rfl).2.1 1
      "abcde" rfl (by decide),
    (c8_client_credential_failures caW stW 10 strA strR
      { reqPwW with auth_header := none } rfl rfl).2.2⟩

/-- C10: every successful code-grant authorize request redirects to a
location with an empty fragment whose query carries the issued code, and
persists exactly one authorization-code row bearing that code. -/
theorem c10_code_grant_success (st : Store) (authUser now : Nat)
    (c a r : String) (req : AuthorizeRequest) (loc : Uri) (st' : Store)
    (hrt : req.response_type = some "code")
    (hfresh : ∀ cd ∈ st.codes, cd.authcode ≠ c)
    (h : oauth2_authorize defaultSettings st authUser now c a r req =
      (Except.ok loc, st')) :
    loc.fragment = "" ∧
    loc.query.lookup "code" = some c ∧
    (st'.codes.filter (fun cd => cd.authcode == c)).length = 1 := by
  unfold oauth2_authorize at h
  split at h
  · simp at h
  split at h
  · simp at h
  split at h
  · simp at h
  rename_i cid hcid cl hcl
  split at h
  · split at h
    · simp at h
    rename_i base hres
    simp only [Prod.mk.injEq, Except.ok.injEq] at h
    obtain ⟨h1, h2⟩ := h
    subst h1
    subst h2
    refine ⟨rfl, mergeQuery_lookup_issuer ?_, ?_⟩
    · simp [issuerParamsCode, List.lookup]
    · simp only [List.filter_append]
      have hnil : st.codes.filter (fun cd => cd.authcode == c) = [] := by
        rw [List.filter_eq_nil_iff]
        intro cd hcd
        simp [hfresh cd hcd]
      rw [hnil]
      simp
  · rename_i hrt2
    rw [hrt] at hrt2
    simp at hrt2
  · rename_i hno1 hno2
    exact absurd hrt hno1

/-- Witness for C10: the fixture plain authorize request issues code C,
redirects to localhost with an empty fragment, and persists one matching
code row. -/
theorem c10_code_grant_success_witness :
    locW10.fragment = "" ∧
    locW10.query.lookup "code" = some "C" ∧
    (stW10.codes.filter (fun cd => cd.authcode == "C")).length = 1 :=
  c10_code_grant_success stW 1 10 "C" strA strR areqW locW10 stW10 rfl
    (by intro cd hcd; simp [stW] at hcd) rfl

end OAuth2
